import Mathlib

/-!
Verification development for `ghosting.py` (Ghostify).

The Python source is shallowly embedded below.  Python integers are
unbounded, so machine arithmetic is modelled as `Nat`/`Int` with no
wrap-around; fallible operations return `Except`/`Option`; the
side-effecting pieces (subprocess invocation, file writing) are modelled
as pure functions from an explicit environment (process exit status,
destination writability) to the observable outcome (rows written,
messages, exception surfaced to the caller, files removed or created).
The report file is modelled at the level pandas operates on: a header
row followed by one row of textual cells per frame.
-/

namespace Ghostify

/-! ## Frame analyzer (`analyze_video`, ghosting.py lines 10-42)

`analyze_video` appends one dict per decoded frame:
`{'index': frame_count, 'type': ptype, 'pts': frame.pts, 'size': packet.size}`.
`pts` may be `None`, hence `Option Int`. -/

structure FrameRecord where
  index : Nat
  type : String
  pts : Option Int
  size : Nat
  deriving DecidableEq, Repr

/-- PyAV picture-type classification, ghosting.py lines 22-25:
`ptype = PictureType(frame.pict_type).name` guarded by
`except (ValueError, AttributeError): ptype = "Unknown"`.
`av.video.frame.PictureType` is the FFmpeg picture-type enum
NONE=0, I=1, P=2, B=3, S=4, SI=5, SP=6, BI=7; constructing it from an
integer outside 0..7 raises `ValueError`, and a frame without a usable
`pict_type` (modelled as `none`) raises `ValueError`/`AttributeError`;
both are caught and become `"Unknown"`. -/
def classifyPictType (pt : Option Int) : String :=
  match pt with
  | none => "Unknown"
  | some v =>
    if v = 0 then "NONE"
    else if v = 1 then "I"
    else if v = 2 then "P"
    else if v = 3 then "B"
    else if v = 4 then "S"
    else if v = 5 then "SI"
    else if v = 6 then "SP"
    else if v = 7 then "BI"
    else "Unknown"

/-- A raw decoded frame as the analyzer sees it: codec picture type
(`none` when the attribute is missing/unusable) and presentation
timestamp (`frame.pts`, nullable). -/
structure RawFrame where
  pict_type : Option Int
  pts : Option Int
  deriving DecidableEq, Repr

/-- A demuxed packet: its byte size and the frames it decodes to
(`packet.decode()` yields zero or more frames). -/
structure Packet where
  size : Nat
  frames : List RawFrame
  deriving DecidableEq, Repr

/-- The container handed to `analyze_video`.  `fatalError = some msg`
models any container-level exception (unreadable file, missing video
stream, demux failure): the `try` block at lines 15-39 is aborted and
the `except` at lines 40-42 returns `[]`. -/
structure Container where
  packets : List Packet
  fatalError : Option String
  deriving DecidableEq, Repr

/-- Inner frame loop (lines 21-36) for one packet: each decoded frame
produces a record carrying the running `frame_count` as `index` and the
enclosing packet's size. -/
def analyzeFrames (pktSize : Nat) : Nat → List RawFrame → List FrameRecord
  | _, [] => []
  | start, f :: rest =>
    { index := start, type := classifyPictType f.pict_type,
      pts := f.pts, size := pktSize } :: analyzeFrames pktSize (start + 1) rest

/-- Packet loop (lines 20-36): `frame_count` keeps incrementing across
packets. -/
def analyzePacketsAux : Nat → List Packet → List FrameRecord
  | _, [] => []
  | start, p :: rest =>
    analyzeFrames p.size start p.frames ++
      analyzePacketsAux (start + p.frames.length) rest

def analyzePackets (ps : List Packet) : List FrameRecord :=
  analyzePacketsAux 0 ps

/-- `analyze_video`, lines 10-42: on success the accumulated list is
returned; on any exception escaping the packet loop the handler at
lines 40-42 prints a message and returns `[]`, discarding `results`. -/
def analyze_video (c : Container) : List FrameRecord :=
  match c.fatalError with
  | some _ => []
  | none => analyzePackets c.packets

/-! ## Decimal cells

Integers are serialized in ordinary base-10 notation (what
`DataFrame.to_csv` emits for an int64 column and what Python `str`
produces) and parsed back (what `read_csv` does).  The printer uses a
fuel-based digit loop so that it evaluates by kernel reduction. -/

/-- Least-significant-first decimal digits of `n` (empty for 0); the
first argument is fuel, `n` itself is always enough. -/
def revDigits : Nat → Nat → List Nat
  | 0, _ => []
  | fuel + 1, n => if n = 0 then [] else n % 10 :: revDigits fuel (n / 10)

def digitChar (d : Nat) : Char :=
  match d with
  | 0 => '0' | 1 => '1' | 2 => '2' | 3 => '3' | 4 => '4'
  | 5 => '5' | 6 => '6' | 7 => '7' | 8 => '8' | 9 => '9'
  | _ => '*'

def charVal (c : Char) : Nat :=
  match c with
  | '0' => 0 | '1' => 1 | '2' => 2 | '3' => 3 | '4' => 4
  | '5' => 5 | '6' => 6 | '7' => 7 | '8' => 8 | '9' => 9
  | _ => 0

/-- Base-10 rendering of a natural number, as Python `str` produces. -/
def natCell (n : Nat) : String :=
  if n = 0 then "0" else String.mk ((revDigits n n).reverse.map digitChar)

/-- Base-10 rendering of an integer, as Python `str` produces. -/
def intCell (i : Int) : String :=
  if i < 0 then "-" ++ natCell i.natAbs else natCell i.natAbs

/-- Parse a cell as a natural number: all characters must be digits. -/
def parseNatCell (s : String) : Option Nat :=
  if s.data ≠ [] ∧ s.data.all Char.isDigit then
    some (Nat.ofDigits 10 ((s.data.map charVal).reverse))
  else none

/-- Parse a cell as an integer (optional leading minus sign). -/
def parseIntCell (s : String) : Option Int :=
  match s.data with
  | '-' :: rest => (parseNatCell (String.mk rest)).map (fun n => -(Int.ofNat n))
  | _ => (parseNatCell s).map Int.ofNat

/-! ## Rounding

`(df['size'] / 1024).round(2)` (line 80) uses numpy rounding, which is
round-half-to-even.  `size/1024` is exact in double precision (a binary
exponent shift) and so is `size*100/1024` for every realistic `size`,
so integer round-half-to-even of `100*size/1024` models the float
computation exactly.  Likewise `f"{pts/90000:.4f}"` (line 99) rounds
`pts*10000/90000 = pts/9` half-to-even; `pts/9` is never exactly
half-integral, and for `|pts|` below ~5e15 the double error cannot move
it across a rounding boundary, so rational rounding is an exact model. -/

/-- Round `a / b` (for `b > 0`) to the nearest integer, ties to even. -/
def rheInt (a b : Int) : Int :=
  let q := a / b
  let r := a % b
  if 2 * r < b then q
  else if b < 2 * r then q + 1
  else if q % 2 = 0 then q else q + 1

/-- Round a rational to the nearest integer, ties to even. -/
def rheQ (x : ℚ) : Int :=
  if Int.fract x < 1 / 2 then ⌊x⌋
  else if 1 / 2 < Int.fract x then ⌊x⌋ + 1
  else if ⌊x⌋ % 2 = 0 then ⌊x⌋ else ⌊x⌋ + 1

/-- `x` rounded to 2 decimal places, stated on ℚ following the spec's
words: "size/1024, rounded to 2 decimals" (tie-breaking as the code's
numpy rounding does). -/
def specRound2 (x : ℚ) : ℚ := (rheQ (x * 100) : ℚ) / 100

/-! ## Report store (`save_frame_report`, lines 75-87)

`pd.DataFrame(frame_data)` takes the dict columns, line 80 adds the
derived `size_kb` column, and `df.to_csv(full_path, index=False)`
writes a header row and one row per record.  The file is modelled as
the list of rows, each row a list of cells. -/

/-- `size_kb` in hundredths: `(size / 1024).round(2)` of line 80. -/
def sizeKbCents (size : Nat) : Int := rheInt (100 * (size : Int)) 1024

/-- Cell text for the rounded `size_kb` float as pandas prints it:
shortest decimal, i.e. trailing zeros trimmed but at least one decimal
digit ("1.0", "1.2", "2.05"). -/
def kbCell (size : Nat) : String :=
  let n := (sizeKbCents size).toNat
  let ip := n / 100
  let fr := n % 100
  if fr = 0 then natCell ip ++ ".0"
  else if fr % 10 = 0 then natCell ip ++ "." ++ natCell (fr / 10)
  else natCell ip ++ "." ++ (if fr < 10 then "0" else "") ++ natCell fr

/-- `pts` cell: a null timestamp (pandas NaN) is written as the empty
cell, an integer as its decimal text. -/
def ptsCell : Option Int → String
  | none => ""
  | some v => intCell v

/-- The header row `to_csv` emits: the DataFrame's column names, which
come from the dict keys at lines 27-32 plus `size_kb` added at line
80.  Note the third column is named `pts`. -/
def reportHeader : List String := ["index", "type", "pts", "size", "size_kb"]

/-- One CSV row per frame record, columns in header order. -/
def rowCells (r : FrameRecord) : List String :=
  [natCell r.index, r.type, ptsCell r.pts, natCell r.size, kbCell r.size]

/-- `save_frame_report` (lines 75-87) as a function to the rows written.
`pd.DataFrame([])` has no columns, so `df['size']` at line 80 raises
`KeyError` — before the `try` at line 83, hence it propagates.  For
nonempty data the rows are header plus one row per record in order. -/
def save_frame_report (frame_data : List FrameRecord) : Except String (List (List String)) :=
  if frame_data.isEmpty then Except.error "KeyError: 'size'"
  else Except.ok (reportHeader :: frame_data.map rowCells)

/-- `pd.read_csv` typing of one row: `index`/`size` as integers, `type`
as the literal string, empty `pts` as NaN (`none`), numeric `pts` as an
integer value.  A malformed row is a Format error (`none`). -/
def parseRow (cells : List String) : Option FrameRecord :=
  match cells with
  | [c0, c1, c2, c3, _kb] =>
    match parseNatCell c0, parseNatCell c3 with
    | some idx, some sz =>
      if c2 = "" then some { index := idx, type := c1, pts := none, size := sz }
      else
        match parseIntCell c2 with
        | some v => some { index := idx, type := c1, pts := some v, size := sz }
        | none => none
    | _, _ => none
  | _ => none

/-- Parse the body rows in order; any malformed row fails the read. -/
def parseRows : List (List String) → Option (List FrameRecord)
  | [] => some []
  | row :: rest =>
    match parseRow row, parseRows rest with
    | some r, some rs => some (r :: rs)
    | _, _ => none

/-- `pd.read_csv` on a report file (line 95, 124, 181): an empty file is
an error, the header names the columns (downstream `df['type']`,
`df['pts']`, `df['index']` lookups fail if they are missing), and each
body row parses to one record, in file order. -/
def read_report (rows : List (List String)) : Except String (List FrameRecord) :=
  match rows with
  | [] => Except.error "EmptyDataError: no columns to parse from file"
  | hdr :: body =>
    if hdr = reportHeader then
      match parseRows body with
      | some recs => Except.ok recs
      | none => Except.error "FormatError: malformed row"
    else Except.error "KeyError: missing expected columns"

/-- Write a report with `save_frame_report`, read the file back with
`pd.read_csv` as the segmenter and compositors do. -/
def report_roundtrip (data : List FrameRecord) : Except String (List FrameRecord) :=
  (save_frame_report data).bind read_report

/-! ## Segmenter (`split_video_pro`, lines 90-116) -/

/-- Zero-pad a natural's decimal text to 4 digits. -/
def pad4 (m : Nat) : String :=
  let s := natCell m
  String.mk (List.replicate (4 - s.length) '0') ++ s

/-- `f"{pts/90000:.4f}"` (line 99): `pts/90000` printed with fixed
4-decimal precision, i.e. `pts*10000/90000` rounded half-to-even and
rendered with exactly four fractional digits. -/
def format4 (pts : Int) : String :=
  let n := rheInt (pts * 10000) 90000
  if n < 0 then "-" ++ natCell (n.natAbs / 10000) ++ "." ++ pad4 (n.natAbs % 10000)
  else natCell (n.toNat / 10000) ++ "." ++ pad4 (n.toNat % 10000)

/-- Lines 96-99: `iframes = df[df['type'] == 'I']`, then
`[f"{pts/90000:.4f}" for pts in iframes['pts'] if pts > 0]`.  A NaN
`pts` (absent timestamp) fails `pts > 0` and is skipped. -/
def split_points (df : List FrameRecord) : List String :=
  (df.filter (fun r => r.type = "I")).filterMap (fun r =>
    match r.pts with
    | some p => if 0 < p then some (format4 p) else none
    | none => none)

/-- Line 100: `times_string = ",".join(split_points)`. -/
def times_string (df : List FrameRecord) : String :=
  String.intercalate "," (split_points df)

/-- The ffmpeg command list of lines 107-112. -/
def split_cmd (video_path output_pattern : String) (df : List FrameRecord) : List String :=
  ["ffmpeg", "-y", "-i", video_path,
   "-f", "segment", "-segment_times", times_string df,
   "-reset_timestamps", "1", "-map", "0", "-c", "copy",
   output_pattern]

/-! ## External process invocation outcomes -/

/-- What the external process did: its exit code and its standard-error
text. -/
structure ProcResult where
  returncode : Int
  stderrText : String
  deriving DecidableEq, Repr

/-- `subprocess.run` for the keyword arguments the source uses: with
`check=True` a non-zero exit raises `CalledProcessError`, otherwise the
`CompletedProcess` is returned; `capture_output=True` attaches stderr
text, otherwise stderr goes to the terminal and is not available. -/
def subprocess_run (check capture : Bool) (res : ProcResult) : Except String ProcResult :=
  if check = true ∧ ¬res.returncode = 0 then Except.error "CalledProcessError"
  else Except.ok { returncode := res.returncode,
                   stderrText := if capture then res.stderrText else "" }

/-- Observable outcome of one collaborator invocation: the exception
surfaced to the caller (if any), the diagnostic text the function
captured and reported (if any), and the partial output files it
removed. -/
structure InvokeOutcome where
  raised : Option String
  captured : Option String
  removedFiles : List String
  deriving DecidableEq, Repr

/-- `split_video_pro`'s handling of the external split, lines 114-116:
`subprocess.run(cmd)` — no `check`, no `capture_output` — and the
returned `CompletedProcess` is discarded; `"Split complete"` is printed
unconditionally and no file is cleaned up. -/
def split_video_pro_invoke (res : ProcResult) : InvokeOutcome :=
  match subprocess_run false false res with
  | Except.error e => { raised := some e, captured := none, removedFiles := [] }
  | Except.ok _ => { raised := none, captured := none, removedFiles := [] }

/-! ## Compositor statistics (lines 124-129 and 181-187) -/

/-- `last_iframe_idx = df[df['type'] == 'I']['index'].max()` — `none`
models the NaN that pandas `max` yields on an empty selection. -/
def last_iframe_idx (df : List FrameRecord) : Option Nat :=
  ((df.filter (fun r => r.type = "I")).map (fun r => r.index)).max?

/-- `frames_in_last = total_frames - last_iframe_idx` where
`total_frames = len(df)` (lines 125-128). -/
def frames_in_last (df : List FrameRecord) : Option Int :=
  (last_iframe_idx df).map (fun li => (df.length : Int) - (li : Int))

/-- `padding_needed = 90 - frames_in_last` in
`create_grayscale_ghost_video` (line 129). -/
def padding_needed_gray (df : List FrameRecord) : Option Int :=
  (frames_in_last df).map (fun k => 90 - k)

/-- `padding_needed = 90 - frames_in_last` in
`create_temporal_ghost_video` (lines 186-187, same computation). -/
def padding_needed_temporal (df : List FrameRecord) : Option Int :=
  (frames_in_last df).map (fun k => 90 - k)

/-- The tpad filter part of `create_grayscale_ghost_video`, line 144:
`f"[{num_segments-1}:v]tpad=stop={padding_needed}:stop_mode=clone,hue=s=0[v{num_segments-1}_gray]"`. -/
def gray_tpad_part (num_segments : Nat) (padding : Int) : String :=
  "[" ++ natCell (num_segments - 1) ++ ":v]tpad=stop=" ++ intCell padding ++
    ":stop_mode=clone,hue=s=0[v" ++ natCell (num_segments - 1) ++ "_gray]"

/-- The tpad filter part of `create_temporal_ghost_video`, line 199:
`f"[{num_segments-1}:v]tpad=stop={padding_needed}:stop_mode=clone[v{num_segments-1}_padded]"`. -/
def temporal_tpad_part (num_segments : Nat) (padding : Int) : String :=
  "[" ++ natCell (num_segments - 1) ++ ":v]tpad=stop=" ++ intCell padding ++
    ":stop_mode=clone[v" ++ natCell (num_segments - 1) ++ "_padded]"

/-- The tpad filter part actually emitted by the grayscale compositor
for a given report. -/
def gray_tpad_filter (df : List FrameRecord) (num_segments : Nat) : Option String :=
  (padding_needed_gray df).map (gray_tpad_part num_segments)

/-- The tpad filter part actually emitted by the temporal compositor
for a given report. -/
def temporal_tpad_filter (df : List FrameRecord) (num_segments : Nat) : Option String :=
  (padding_needed_temporal df).map (temporal_tpad_part num_segments)

/-! ## Temporal color zones (`create_temporal_ghost_video`, lines 201-224) -/

def redMixer : String :=
  "colorchannelmixer=rr=1.0:rg=0:rb=0:gr=0:gg=0:gb=0:br=0:bg=0:bb=0"

def greenMixer : String :=
  "colorchannelmixer=rr=0:rg=0:rb=0:gr=0:gg=1.0:gb=0:br=0:bg=0:bb=0"

def blueMixer : String :=
  "colorchannelmixer=rr=0:rg=0:rb=0:gr=0:gg=0:gb=0:br=0:bg=0:bb=1.0"

/-- Zone selection, lines 202-221: `third_size = num_segments / 3`
(Python true division); `i < third_size` holds exactly when
`3*i < num_segments` and `i < 2*third_size` exactly when
`3*i < 2*num_segments` (for integers the double `N/3` differs from the
rational `N/3` by far less than the distance to any integer, so the
float comparisons agree with the rational ones). -/
def zoneMixer (i num_segments : Nat) : String :=
  if 3 * i < num_segments then redMixer
  else if 3 * i < 2 * num_segments then greenMixer
  else blueMixer

/-- An RGB pixel, channel values as rationals. -/
structure Rgb where
  r : ℚ
  g : ℚ
  b : ℚ

/-- The nine `colorchannelmixer` coefficients. -/
structure MixerCoeffs where
  (rr rg rb gr gg gb br bg bb : ℚ)

/-- Coefficients written in `redMixer`: `rr=1.0`, everything else 0. -/
def redCoeffs : MixerCoeffs := ⟨1, 0, 0, 0, 0, 0, 0, 0, 0⟩

/-- Coefficients written in `greenMixer`: `gg=1.0`, everything else 0. -/
def greenCoeffs : MixerCoeffs := ⟨0, 0, 0, 0, 1, 0, 0, 0, 0⟩

/-- Coefficients written in `blueMixer`: `bb=1.0`, everything else 0. -/
def blueCoeffs : MixerCoeffs := ⟨0, 0, 0, 0, 0, 0, 0, 0, 1⟩

/-- ffmpeg `colorchannelmixer` semantics: each output channel is the
coefficient-weighted sum of the input channels. -/
def applyMixer (m : MixerCoeffs) (p : Rgb) : Rgb :=
  { r := m.rr * p.r + m.rg * p.g + m.rb * p.b,
    g := m.gr * p.r + m.gg * p.g + m.gb * p.b,
    b := m.br * p.r + m.bg * p.g + m.bb * p.b }

/-! ## Saving with IO effects (`save_frame_report`, lines 81-87) -/

/-- Observable outcome of a `save_frame_report` call that reached the
write step: the rows written (if the write succeeded), the message
printed, and any directories the function created. -/
structure SaveOutcome where
  written : Option (List (List String))
  message : String
  createdDirs : List String
  deriving DecidableEq, Repr

/-- `save_frame_report` including the write step.  `writable` models
"the destination directory exists and is writable"; when it is false
`df.to_csv` raises `OSError`, which the `except` at lines 86-87 catches
and prints — the function still returns normally.  No `os.makedirs`
call exists in the function, so `createdDirs` is always empty.  The
`KeyError` of the empty-data case happens at line 80, outside the
`try`, and is the only exception that escapes. -/
def save_frame_report_io (writable : Bool) (frame_data : List FrameRecord)
    (full_path : String) : Except String SaveOutcome :=
  match save_frame_report frame_data with
  | Except.error e => Except.error e
  | Except.ok rows =>
    if writable then
      Except.ok { written := some rows,
                  message := "--- SUCCESS: Report saved to " ++ full_path ++ " ---",
                  createdDirs := [] }
    else
      Except.ok { written := none,
                  message := "Failed to save file: OSError",
                  createdDirs := [] }

/-! ## Concrete inputs used by witnesses and counterexamples -/

/-- A small report with all three common frame types and a null
timestamp. -/
def sampleReport : List FrameRecord :=
  [{ index := 0, type := "I", pts := some 0, size := 5120 },
   { index := 1, type := "P", pts := none, size := 700 },
   { index := 2, type := "B", pts := some 3000, size := 256 }]

/-- A container whose single frame carries picture type `S`
(AV_PICTURE_TYPE_S = 4, a valid PyAV enum value outside I/P/B). -/
def sFrameContainer : Container :=
  { packets := [{ size := 10, frames := [{ pict_type := some 4, pts := some 0 }] }],
    fatalError := none }

/-- A container that fails at the container level after frames were
available: the partial results must be discarded. -/
def fatalContainer : Container :=
  { packets := [{ size := 5, frames := [{ pict_type := some 1, pts := some 0 }] },
                { size := 7, frames := [{ pict_type := some 2, pts := some 3000 }] }],
    fatalError := some "Invalid data found when processing input" }

/-- A synthetic report of `total` frames with I-frames at indices 0 and
`lastI` and P-frames elsewhere. -/
def mkReport (total lastI : Nat) : List FrameRecord :=
  (List.range total).map (fun i =>
    { index := i, type := if i = 0 ∨ i = lastI then "I" else "P",
      pts := some ((i : Int) * 3000), size := 800 })

/-- The spec's end-to-end scenario: 270 frames, keyframes at indices
0, 90, 180 with timestamps 0, 90000, 180000 (timebase 90000). -/
def scenario270 : List FrameRecord :=
  (List.range 270).map (fun i =>
    { index := i, type := if i % 90 = 0 then "I" else "P",
      pts := some ((i : Int) * 1000), size := 1500 })

/-! ## Helper lemmas -/

theorem analyzeFrames_length (pktSize start : Nat) (fs : List RawFrame) :
    (analyzeFrames pktSize start fs).length = fs.length := by
  induction fs generalizing start with
  | nil => rfl
  | cons f rest ih => simp [analyzeFrames, ih]

theorem analyzePacketsAux_length (start : Nat) (ps : List Packet) :
    (analyzePacketsAux start ps).length = (ps.map (fun p => p.frames.length)).sum := by
  induction ps generalizing start with
  | nil => rfl
  | cons p rest ih => simp [analyzePacketsAux, analyzeFrames_length, ih]

theorem revDigits_ofDigits (fuel n : Nat) (h : n ≤ fuel) :
    Nat.ofDigits 10 (revDigits fuel n) = n := by
  induction fuel generalizing n with
  | zero => interval_cases n; rfl
  | succ fuel ih =>
    by_cases hn : n = 0
    · simp [revDigits, hn]
    · rw [revDigits, if_neg hn, Nat.ofDigits_cons, ih (n / 10) ?_]
      · omega
      · have : n / 10 < n := Nat.div_lt_self (Nat.pos_of_ne_zero hn) (by omega)
        omega

theorem revDigits_mem_lt (fuel n d : Nat) (h : d ∈ revDigits fuel n) : d < 10 := by
  induction fuel generalizing n with
  | zero => simp [revDigits] at h
  | succ fuel ih =>
    rw [revDigits] at h
    by_cases hn : n = 0
    · simp [hn] at h
    · rw [if_neg hn] at h
      rcases List.mem_cons.mp h with h1 | h2
      · omega
      · exact ih _ h2

theorem revDigits_ne_nil (fuel n : Nat) (hn : 0 < n) (h : n ≤ fuel) :
    revDigits fuel n ≠ [] := by
  cases fuel with
  | zero => omega
  | succ fuel => simp [revDigits]; omega

theorem charVal_digitChar (d : Nat) (h : d < 10) : charVal (digitChar d) = d := by
  interval_cases d <;> rfl

theorem isDigit_digitChar (d : Nat) (h : d < 10) : (digitChar d).isDigit = true := by
  interval_cases d <;> rfl

theorem parseNatCell_natCell (n : Nat) : parseNatCell (natCell n) = some n := by
  by_cases hn : n = 0
  · subst hn; rfl
  · rw [natCell, if_neg hn]
    have hne : revDigits n n ≠ [] := revDigits_ne_nil n n (Nat.pos_of_ne_zero hn) le_rfl
    have hlt : ∀ d ∈ revDigits n n, d < 10 := fun d hd => revDigits_mem_lt n n d hd
    rw [parseNatCell]
    have hdata : (String.mk ((revDigits n n).reverse.map digitChar)).data =
        (revDigits n n).reverse.map digitChar := rfl
    rw [if_pos ?side]
    · congr 1
      rw [hdata, List.map_map, List.map_reverse, List.reverse_reverse]
      have : (revDigits n n).map (charVal ∘ digitChar) = (revDigits n n).map id := by
        apply List.map_congr_left
        intro d hd
        simp [charVal_digitChar d (hlt d hd)]
      rw [this, List.map_id]
      exact revDigits_ofDigits n n le_rfl
    · constructor
      · rw [hdata]
        simp only [ne_eq, List.map_eq_nil_iff, List.reverse_eq_nil_iff]
        exact hne
      · rw [hdata, List.all_eq_true]
        intro c hc
        rcases List.mem_map.mp hc with ⟨d, hd, rfl⟩
        exact isDigit_digitChar d (hlt d (List.mem_reverse.mp hd))

theorem natCell_head_isDigit (n : Nat) :
    ∃ c cs, (natCell n).data = c :: cs ∧ c.isDigit = true := by
  have h := parseNatCell_natCell n
  rw [parseNatCell] at h
  split at h
  · rename_i hcond
    obtain ⟨hne, hall⟩ := hcond
    cases hd : (natCell n).data with
    | nil => exact absurd hd hne
    | cons c cs =>
      refine ⟨c, cs, rfl, ?_⟩
      rw [hd, List.all_cons, Bool.and_eq_true] at hall
      exact hall.1
  · exact absurd h (by simp)

theorem parseIntCell_intCell (i : Int) : parseIntCell (intCell i) = some i := by
  by_cases hi : i < 0
  · have h1 : parseIntCell ("-" ++ natCell i.natAbs)
        = (parseNatCell (natCell i.natAbs)).map (fun n => -(Int.ofNat n)) := rfl
    rw [intCell, if_pos hi, h1, parseNatCell_natCell]
    simp only [Option.map_some', Int.ofNat_eq_natCast, Option.some.injEq]
    omega
  · rw [intCell, if_neg hi]
    obtain ⟨c, cs, hd, hdig⟩ := natCell_head_isDigit i.natAbs
    have hcne : ∀ rest : List Char, c :: cs ≠ '-' :: rest := by
      intro rest h
      have hc : c = '-' := by injection h
      rw [hc] at hdig
      exact absurd hdig (by decide)
    rw [parseIntCell, hd]
    split
    · rename_i rest heq
      exact absurd heq (hcne rest)
    · rw [parseNatCell_natCell]
      simp only [Option.map_some', Int.ofNat_eq_natCast, Option.some.injEq]
      omega

theorem natCell_ne_empty (n : Nat) : natCell n ≠ "" := by
  obtain ⟨c, cs, hd, _⟩ := natCell_head_isDigit n
  intro h
  rw [h] at hd
  exact List.noConfusion hd

theorem intCell_ne_empty (i : Int) : intCell i ≠ "" := by
  rw [intCell]
  split
  · intro h
    have hx : ("-" ++ natCell i.natAbs).data = '-' :: (natCell i.natAbs).data := rfl
    rw [h] at hx
    exact List.noConfusion hx
  · exact natCell_ne_empty i.natAbs

theorem parseRow_rowCells (r : FrameRecord) : parseRow (rowCells r) = some r := by
  rcases r with ⟨idx, ty, pts, sz⟩
  cases pts with
  | none =>
    simp [parseRow, rowCells, ptsCell, parseNatCell_natCell]
  | some v =>
    simp [parseRow, rowCells, ptsCell, parseNatCell_natCell, parseIntCell_intCell,
      intCell_ne_empty v]

theorem parseRows_rowCells (l : List FrameRecord) :
    parseRows (l.map rowCells) = some l := by
  induction l with
  | nil => rfl
  | cons r rest ih => simp [parseRows, parseRow_rowCells, ih]

theorem rheInt_eq_rheQ (a : Int) (b : Nat) (hb : 0 < b) :
    rheInt a (b : Int) = rheQ ((a : ℚ) / (b : ℚ)) := by
  have hbQ : (0 : ℚ) < (b : ℚ) := by exact_mod_cast hb
  have hbI : ((b : Int) : Int) ≠ 0 := by exact_mod_cast hb.ne'
  have hfl : ⌊(a : ℚ) / (b : ℚ)⌋ = a / (b : Int) := Rat.floor_intCast_div_natCast a b
  have hfr : Int.fract ((a : ℚ) / (b : ℚ)) = ((a % (b : Int) : Int) : ℚ) / (b : ℚ) :=
    Int.fract_div_intCast_eq_div_intCast_mod
  have key1 : (Int.fract ((a : ℚ) / (b : ℚ)) < 1 / 2) ↔ 2 * (a % (b : Int)) < (b : Int) := by
    rw [hfr, div_lt_div_iff₀ hbQ (by norm_num : (0 : ℚ) < 2), one_mul]
    constructor
    · intro h
      have hc : ((a % (b : Int)) * 2 : Int) < (b : Int) := by exact_mod_cast h
      omega
    · intro h
      have hc : ((a % (b : Int)) * 2 : Int) < (b : Int) := by omega
      exact_mod_cast hc
  have key2 : ((1 : ℚ) / 2 < Int.fract ((a : ℚ) / (b : ℚ))) ↔ (b : Int) < 2 * (a % (b : Int)) := by
    rw [hfr, div_lt_div_iff₀ (by norm_num : (0 : ℚ) < 2) hbQ, one_mul]
    constructor
    · intro h
      have hc : ((b : Int) : Int) < (a % (b : Int)) * 2 := by exact_mod_cast h
      omega
    · intro h
      have hc : ((b : Int) : Int) < (a % (b : Int)) * 2 := by omega
      exact_mod_cast hc
  rw [rheInt, rheQ]
  simp only [key1, key2, hfl]

theorem sizeKbCents_eq_specRound2 (s : Nat) :
    ((sizeKbCents s : Int) : ℚ) / 100 = specRound2 ((s : ℚ) / 1024) := by
  have h2 : rheInt (100 * (s : Int)) 1024
      = rheQ (((100 * (s : Int) : Int) : ℚ) / ((1024 : Nat) : ℚ)) :=
    rheInt_eq_rheQ (100 * (s : Int)) 1024 (by norm_num)
  have harg : ((100 * (s : Int) : Int) : ℚ) / ((1024 : Nat) : ℚ) = (s : ℚ) / 1024 * 100 := by
    push_cast
    ring
  rw [sizeKbCents, specRound2, h2, harg]

theorem split_points_eq (df : List FrameRecord) :
    split_points df =
      (df.filter (fun r => r.type = "I" ∧ 0 < r.pts.getD 0)).map
        (fun r => format4 (r.pts.getD 0)) := by
  induction df with
  | nil => rfl
  | cons r rest ih =>
    rw [split_points] at ih ⊢
    by_cases ht : r.type = "I"
    · cases hp : r.pts with
      | none =>
        simp [List.filter_cons, List.filterMap_cons, ht, hp, ih]
      | some p =>
        by_cases hpos : 0 < p
        · simp [List.filter_cons, List.filterMap_cons, ht, hp, hpos, ih]
        · simp [List.filter_cons, List.filterMap_cons, ht, hp, hpos, ih]
    · simp [List.filter_cons, ht, ih]

/-! ## Claims -/

/-- C1 (counterexample): the round-trip property fails for the empty
frame-data list, which `analyze_video` produces on failure:
`pd.DataFrame([])` has no `size` column, so `save_frame_report` raises
`KeyError` at line 80 and nothing is written, hence reading back cannot
return the (empty) sequence. -/
theorem c1_empty_report_roundtrip_fails :
    report_roundtrip [] ≠ Except.ok ([] : List FrameRecord) := by
  intro h
  have he : report_roundtrip [] = Except.error "KeyError: 'size'" := rfl
  rw [he] at h
  exact Except.noConfusion h

/-- C1 (amended): for every nonempty frame data list, writing it with
`save_frame_report` and reading the file back with `pd.read_csv` yields
the same ordered sequence of (index, type, timestamp, size) records,
with `type` round-tripping as its name string and row order preserved;
the `size_kb` column is the fifth cell of each row, a function of
`size` alone recomputed on every write, whose value is size/1024
rounded to 2 decimals. -/
theorem c1_nonempty_report_roundtrip (data : List FrameRecord) (h : data ≠ []) :
    report_roundtrip data = Except.ok data ∧
    save_frame_report data = Except.ok (reportHeader :: data.map rowCells) ∧
    (∀ r ∈ data, (rowCells r)[4]? = some (kbCell r.size)) ∧
    (∀ s : Nat, ((sizeKbCents s : Int) : ℚ) / 100 = specRound2 ((s : ℚ) / 1024)) := by
  have hsave : save_frame_report data = Except.ok (reportHeader :: data.map rowCells) := by
    rw [save_frame_report, if_neg]
    simpa [List.isEmpty_iff] using h
  refine ⟨?_, hsave, ?_, sizeKbCents_eq_specRound2⟩
  · rw [report_roundtrip, hsave]
    show read_report (reportHeader :: data.map rowCells) = Except.ok data
    rw [read_report, if_pos rfl, parseRows_rowCells]
  · intro r _
    simp [rowCells]

/-- C1 (witness). -/
theorem c1_nonempty_report_roundtrip_witness :
    sampleReport ≠ [] ∧ report_roundtrip sampleReport = Except.ok sampleReport :=
  ⟨by decide, (c1_nonempty_report_roundtrip sampleReport (by decide)).1⟩

set_option maxRecDepth 40000 in
/-- C2: the split-point list has exactly one entry per Intra record
with strictly positive timestamp, in report order, each formatted with
fixed 4-decimal precision from timebase-90000 units, joined with
commas; a leading record with timestamp 0 or with no timestamp never
produces a split point; and the spec's 3-keyframe scenario (timestamps
0, 90000, 180000) yields exactly ["1.0000", "2.0000"]. -/
theorem c2_split_points_spec :
    (∀ df : List FrameRecord,
      split_points df =
        (df.filter (fun r => r.type = "I" ∧ 0 < r.pts.getD 0)).map
          (fun r => format4 (r.pts.getD 0)) ∧
      (split_points df).length =
        (df.filter (fun r => r.type = "I" ∧ 0 < r.pts.getD 0)).length ∧
      times_string df = String.intercalate "," (split_points df)) ∧
    (∀ (df : List FrameRecord) (i : Nat) (t : String) (sz : Nat),
      split_points ({ index := i, type := t, pts := some 0, size := sz } :: df) =
        split_points df ∧
      split_points ({ index := i, type := t, pts := none, size := sz } :: df) =
        split_points df) ∧
    format4 90000 = "1.0000" ∧
    format4 180000 = "2.0000" ∧
    split_points scenario270 = ["1.0000", "2.0000"] ∧
    times_string scenario270 = "1.0000,2.0000" := by
  refine ⟨?_, ?_, by decide, by decide, by decide, by decide⟩
  · intro df
    refine ⟨split_points_eq df, ?_, rfl⟩
    rw [split_points_eq df, List.length_map]
  · intro df i t sz
    constructor
    · by_cases ht : t = "I" <;>
        simp [split_points, List.filter_cons, List.filterMap_cons, ht]
    · by_cases ht : t = "I" <;>
        simp [split_points, List.filter_cons, List.filterMap_cons, ht]

set_option maxRecDepth 40000 in
/-- C3: both compositor strategies compute the trailing-segment padding
as `framesInLastSegment = totalFrames - lastIntraIndex` and
`paddingNeeded = 90 - framesInLastSegment`; in particular
totalFrames=1100 with lastIntraIndex=1010 gives paddingNeeded=0, and
lastIntraIndex=1050 gives framesInLastSegment=50 and paddingNeeded=40. -/
theorem c3_padding_formula :
    (∀ (df : List FrameRecord) (li : Nat), last_iframe_idx df = some li →
      frames_in_last df = some ((df.length : Int) - (li : Int)) ∧
      padding_needed_gray df = some (90 - ((df.length : Int) - (li : Int))) ∧
      padding_needed_temporal df = some (90 - ((df.length : Int) - (li : Int)))) ∧
    padding_needed_gray (mkReport 1100 1010) = some 0 ∧
    padding_needed_temporal (mkReport 1100 1010) = some 0 ∧
    frames_in_last (mkReport 1100 1050) = some 50 ∧
    padding_needed_gray (mkReport 1100 1050) = some 40 ∧
    padding_needed_temporal (mkReport 1100 1050) = some 40 := by
  refine ⟨?_, by decide, by decide, by decide, by decide, by decide⟩
  intro df li h
  refine ⟨?_, ?_, ?_⟩ <;>
    simp [frames_in_last, padding_needed_gray, padding_needed_temporal, h]

set_option maxRecDepth 40000 in
/-- C3 (witness). -/
theorem c3_padding_formula_witness :
    last_iframe_idx (mkReport 5 2) = some 2 ∧
    padding_needed_gray (mkReport 5 2) =
      some (90 - (((mkReport 5 2).length : Int) - (2 : Int))) :=
  ⟨by decide, (c3_padding_formula.1 (mkReport 5 2) 2 (by decide)).2.1⟩

/-- C4 (counterexample): a frame whose codec picture type is
AV_PICTURE_TYPE_S (= 4, a valid PyAV enum value) is recorded with type
"S", which is not one of the four claimed enumerants
Intra/Predicted/BiPredicted/Unknown — `PictureType(4).name` succeeds,
so the `except` fallback to "Unknown" is never taken. -/
theorem c4_s_frame_not_unknown :
    (analyze_video sFrameContainer).map (fun r => r.type) = ["S"] ∧
    "S" ∉ (["I", "P", "B", "Unknown"] : List String) :=
  ⟨by decide, by decide⟩

/-- C4 (amended): every recorded type is one of the nine strings
NONE/I/P/B/S/SI/SP/BI/Unknown (the eight PyAV picture-type names plus
the fallback); a missing `pict_type` and any integer outside the enum
range 0..7 map to "Unknown" rather than propagating; and classification
never aborts the analysis: every decoded frame of a container with no
fatal error yields exactly one record. -/
theorem c4_classification_amended :
    (∀ pt : Option Int, classifyPictType pt ∈
      (["NONE", "I", "P", "B", "S", "SI", "SP", "BI", "Unknown"] : List String)) ∧
    classifyPictType none = "Unknown" ∧
    (∀ v : Int, (v < 0 ∨ 7 < v) → classifyPictType (some v) = "Unknown") ∧
    (∀ c : Container, c.fatalError = none →
      (analyze_video c).length = (c.packets.map (fun p => p.frames.length)).sum) := by
  refine ⟨?_, rfl, ?_, ?_⟩
  · intro pt
    cases pt with
    | none => decide
    | some v =>
      simp only [classifyPictType]
      split_ifs <;> simp
  · intro v hv
    simp only [classifyPictType]
    split_ifs <;> first | rfl | (exfalso; omega)
  · intro c hc
    simp only [analyze_video, hc]
    simpa [analyzePackets] using analyzePacketsAux_length 0 c.packets

/-- C4 (witness). -/
theorem c4_classification_amended_witness :
    classifyPictType (some 4) ∈
      (["NONE", "I", "P", "B", "S", "SI", "SP", "BI", "Unknown"] : List String) ∧
    classifyPictType (some 99) = "Unknown" ∧
    classifyPictType none = "Unknown" ∧
    (analyze_video sFrameContainer).length =
      ((sFrameContainer.packets.map (fun p => p.frames.length)).sum) :=
  ⟨c4_classification_amended.1 (some 4),
   c4_classification_amended.2.2.1 99 (Or.inr (by norm_num)),
   c4_classification_amended.2.1,
   c4_classification_amended.2.2.2 sFrameContainer rfl⟩

/-- C5: on any fatal container-level failure `analyze_video` returns
the empty report; whatever records were accumulated before the failure
are discarded, never returned. -/
theorem c5_fatal_returns_empty :
    ∀ (c : Container) (msg : String), c.fatalError = some msg → analyze_video c = [] := by
  intro c msg h
  simp [analyze_video, h]

/-- C5 (witness): a container with two decodable packets but a fatal
error returns `[]` even though the packet data alone would have
produced a nonempty report. -/
theorem c5_fatal_returns_empty_witness :
    analyze_video fatalContainer = [] ∧ analyzePackets fatalContainer.packets ≠ [] :=
  ⟨c5_fatal_returns_empty fatalContainer "Invalid data found when processing input" rfl,
   by decide⟩

/-- C6 (counterexample): the header row of the written report names the
third column `pts`, not `timestamp` — shown on a concrete one-record
report together with the full written file. -/
theorem c6_header_names_pts :
    save_frame_report [{ index := 0, type := "I", pts := some 0, size := 1024 }] =
      Except.ok [["index", "type", "pts", "size", "size_kb"],
                 ["0", "I", "0", "1024", "1.0"]] ∧
    reportHeader ≠ ["index", "type", "timestamp", "size", "size_kb"] :=
  ⟨rfl, by decide⟩

/-- C6 (amended): for every nonempty frame data list,
`save_frame_report` writes a header row naming the columns
index, type, pts, size, size_kb in that order, then one row per frame
in order, with `type` serialized as its enumerant name string and the
timestamp cell empty when the timestamp is null.  (On the empty list
the function raises `KeyError` before writing.) -/
theorem c6_report_format_amended (data : List FrameRecord) (h : data ≠ []) :
    save_frame_report data = Except.ok (reportHeader :: data.map rowCells) ∧
    reportHeader = ["index", "type", "pts", "size", "size_kb"] ∧
    ∀ r ∈ data,
      rowCells r = [natCell r.index, r.type, ptsCell r.pts, natCell r.size, kbCell r.size] ∧
      (rowCells r)[1]? = some r.type ∧
      (r.pts = none → (rowCells r)[2]? = some "") := by
  refine ⟨?_, rfl, ?_⟩
  · rw [save_frame_report, if_neg]
    simpa [List.isEmpty_iff] using h
  · intro r _
    refine ⟨rfl, by simp [rowCells], ?_⟩
    intro hp
    simp [rowCells, hp, ptsCell]

/-- C6 (witness). -/
theorem c6_report_format_amended_witness :
    sampleReport ≠ [] ∧
    save_frame_report sampleReport = Except.ok (reportHeader :: sampleReport.map rowCells) :=
  ⟨by decide, (c6_report_format_amended sampleReport (by decide)).1⟩

/-- C7: the temporal strategy partitions segment indices into three
contiguous proportional thirds of num_segments — red exactly when
i < N/3, green exactly when N/3 ≤ i < 2N/3, blue exactly when
2N/3 ≤ i (rational thirds, not fixed absolute indices); with
num_segments = 12, segments 0-3 are red, 4-7 green, 8-11 blue; and each
zone's colorchannelmixer keeps exactly one primary channel and zeros
the other two. -/
theorem c7_temporal_zones :
    ((List.range 12).map (fun i => zoneMixer i 12) =
      List.replicate 4 redMixer ++ List.replicate 4 greenMixer ++
        List.replicate 4 blueMixer) ∧
    (∀ num_segments i : Nat,
      (zoneMixer i num_segments = redMixer ↔
        (i : ℚ) < (num_segments : ℚ) / 3) ∧
      (zoneMixer i num_segments = greenMixer ↔
        (num_segments : ℚ) / 3 ≤ (i : ℚ) ∧ (i : ℚ) < 2 * (num_segments : ℚ) / 3) ∧
      (zoneMixer i num_segments = blueMixer ↔
        2 * (num_segments : ℚ) / 3 ≤ (i : ℚ))) ∧
    (∀ p : Rgb,
      applyMixer redCoeffs p = ⟨p.r, 0, 0⟩ ∧
      applyMixer greenCoeffs p = ⟨0, p.g, 0⟩ ∧
      applyMixer blueCoeffs p = ⟨0, 0, p.b⟩) := by
  refine ⟨by decide, ?_, ?_⟩
  · intro N i
    have h3 : (0 : ℚ) < 3 := by norm_num
    have key1 : ((i : ℚ) < (N : ℚ) / 3) ↔ 3 * i < N := by
      rw [lt_div_iff₀ h3,
        show ((i : ℚ) * 3) = ((i * 3 : ℕ) : ℚ) by push_cast; ring, Nat.cast_lt]
      omega
    have key2 : ((N : ℚ) / 3 ≤ (i : ℚ)) ↔ N ≤ 3 * i := by
      rw [div_le_iff₀ h3,
        show ((i : ℚ) * 3) = ((i * 3 : ℕ) : ℚ) by push_cast; ring, Nat.cast_le]
      omega
    have key3 : ((i : ℚ) < 2 * (N : ℚ) / 3) ↔ 3 * i < 2 * N := by
      rw [lt_div_iff₀ h3,
        show ((i : ℚ) * 3) = ((i * 3 : ℕ) : ℚ) by push_cast; ring,
        show ((2 : ℚ) * (N : ℚ)) = ((2 * N : ℕ) : ℚ) by push_cast; ring, Nat.cast_lt]
      omega
    have key4 : (2 * (N : ℚ) / 3 ≤ (i : ℚ)) ↔ 2 * N ≤ 3 * i := by
      rw [div_le_iff₀ h3,
        show ((i : ℚ) * 3) = ((i * 3 : ℕ) : ℚ) by push_cast; ring,
        show ((2 : ℚ) * (N : ℚ)) = ((2 * N : ℕ) : ℚ) by push_cast; ring, Nat.cast_le]
      omega
    have hrg : redMixer ≠ greenMixer := by decide
    have hrb : redMixer ≠ blueMixer := by decide
    have hgb : greenMixer ≠ blueMixer := by decide
    rw [zoneMixer]
    split_ifs with h1 h2
    · simp only [key1, key2, key3, key4]
      refine ⟨by simp; omega, ?_, ?_⟩
      · constructor
        · intro h; exact absurd h hrg
        · intro h; omega
      · constructor
        · intro h; exact absurd h hrb
        · intro h; omega
    · simp only [key1, key2, key3, key4]
      refine ⟨?_, by simp; omega, ?_⟩
      · constructor
        · intro h; exact absurd h hrg.symm
        · intro h; omega
      · constructor
        · intro h; exact absurd h hgb
        · intro h; omega
    · simp only [key1, key2, key3, key4]
      refine ⟨?_, ?_, by simp; omega⟩
      · constructor
        · intro h; exact absurd h hrb.symm
        · intro h; omega
      · constructor
        · intro h; exact absurd h hgb.symm
        · intro h; omega
  · intro p
    refine ⟨?_, ?_, ?_⟩ <;>
      simp [applyMixer, redCoeffs, greenCoeffs, blueCoeffs]

/-- C8 (counterexample): when the external split exits with code 1 and
error text on stderr, `split_video_pro` raises nothing, captures
nothing, and its outcome is identical to the success outcome — the
failure is not surfaced to the caller (the claimed surfacing with
captured diagnostics is false). -/
theorem c8_split_failure_not_surfaced :
    split_video_pro_invoke { returncode := 1, stderrText := "boom" } =
      { raised := none, captured := none, removedFiles := [] } ∧
    split_video_pro_invoke { returncode := 1, stderrText := "boom" } =
      split_video_pro_invoke { returncode := 0, stderrText := "" } :=
  ⟨rfl, rfl⟩

/-- C8 (amended): whatever the external split's exit status and stderr,
`split_video_pro` surfaces no failure and captures no diagnostic output
(it calls `subprocess.run` without `check` or `capture_output` and
discards the result, printing completion unconditionally); it does
leave partially written segment files on disk — it never removes any
file. -/
theorem c8_split_outcome_amended :
    ∀ res : ProcResult,
      split_video_pro_invoke res =
        { raised := none, captured := none, removedFiles := [] } := by
  intro res
  rfl

/-- C9 (counterexample): with the destination directory unwritable,
`save_frame_report` returns normally with a printed failure message —
it does not fail with an IO error. -/
theorem c9_unwritable_no_error :
    save_frame_report_io false [{ index := 0, type := "I", pts := some 0, size := 2048 }]
        "/outdir/video_analysis.csv" =
      Except.ok { written := none, message := "Failed to save file: OSError",
                  createdDirs := [] } :=
  rfl

/-- C9 (amended): for every nonempty frame data list,
`save_frame_report` never surfaces an IO error: the write step's
exception is caught and printed and the call returns normally (with
nothing written when the destination is unwritable); it creates no
missing parent directories in any case. -/
theorem c9_save_error_swallowed_amended (writable : Bool) (data : List FrameRecord)
    (p : String) (h : data ≠ []) :
    (∃ out : SaveOutcome,
      save_frame_report_io writable data p = Except.ok out ∧ out.createdDirs = []) ∧
    save_frame_report_io false data p =
      Except.ok { written := none, message := "Failed to save file: OSError",
                  createdDirs := [] } := by
  have hsave : save_frame_report data = Except.ok (reportHeader :: data.map rowCells) := by
    rw [save_frame_report, if_neg]
    simpa [List.isEmpty_iff] using h
  constructor
  · cases writable with
    | true =>
      exact ⟨{ written := some (reportHeader :: data.map rowCells),
               message := "--- SUCCESS: Report saved to " ++ p ++ " ---",
               createdDirs := [] },
             by simp [save_frame_report_io, hsave], rfl⟩
    | false =>
      exact ⟨{ written := none, message := "Failed to save file: OSError",
               createdDirs := [] },
             by simp [save_frame_report_io, hsave], rfl⟩
  · simp [save_frame_report_io, hsave]

/-- C9 (witness). -/
theorem c9_save_error_swallowed_amended_witness :
    sampleReport ≠ [] ∧
    save_frame_report_io false sampleReport "video_analysis.csv" =
      Except.ok { written := none, message := "Failed to save file: OSError",
                  createdDirs := [] } :=
  ⟨by decide,
   (c9_save_error_swallowed_amended false sampleReport "video_analysis.csv" (by decide)).2⟩

/-- C10: whenever the trailing segment is longer than the 90-frame
target (totalFrames minus last Intra index exceeds 90), the padding
computed by both compositors is negative and is interpolated verbatim
(with its minus sign) into the `tpad=stop=` filter expression; neither
function clamps it to zero. -/
theorem c10_negative_padding_verbatim :
    ∀ (df : List FrameRecord) (li num_segments : Nat),
      last_iframe_idx df = some li →
      90 < (df.length : Int) - (li : Int) →
      ∃ p : Int, p = 90 - ((df.length : Int) - (li : Int)) ∧ p < 0 ∧
        padding_needed_gray df = some p ∧
        padding_needed_temporal df = some p ∧
        gray_tpad_filter df num_segments = some (gray_tpad_part num_segments p) ∧
        temporal_tpad_filter df num_segments = some (temporal_tpad_part num_segments p) ∧
        intCell p = "-" ++ natCell p.natAbs := by
  intro df li N hlast hbig
  refine ⟨90 - ((df.length : Int) - (li : Int)), rfl, by omega, ?_, ?_, ?_, ?_, ?_⟩
  · simp [padding_needed_gray, frames_in_last, hlast]
  · simp [padding_needed_temporal, frames_in_last, hlast]
  · simp [gray_tpad_filter, padding_needed_gray, frames_in_last, hlast]
  · simp [temporal_tpad_filter, padding_needed_temporal, frames_in_last, hlast]
  · rw [intCell, if_pos (by omega)]

set_option maxRecDepth 40000 in
/-- C10 (witness): a 200-frame report with last keyframe at index 50
gives padding -60, spliced as "-60" into both tpad filter strings. -/
theorem c10_negative_padding_verbatim_witness :
    last_iframe_idx (mkReport 200 50) = some 50 ∧
    (90 : Int) < ((mkReport 200 50).length : Int) - (50 : Int) ∧
    (∃ p : Int, p = 90 - (((mkReport 200 50).length : Int) - (50 : Int)) ∧ p < 0 ∧
      padding_needed_gray (mkReport 200 50) = some p ∧
      padding_needed_temporal (mkReport 200 50) = some p ∧
      gray_tpad_filter (mkReport 200 50) 12 = some (gray_tpad_part 12 p) ∧
      temporal_tpad_filter (mkReport 200 50) 12 = some (temporal_tpad_part 12 p) ∧
      intCell p = "-" ++ natCell p.natAbs) :=
  ⟨by decide, by decide,
   c10_negative_padding_verbatim (mkReport 200 50) 50 12 (by decide) (by decide)⟩

end Ghostify
